import Mathlib

/-!
Verification development for the A21 Carbon Calculator core
(`src/stable/server.py`): the tab-separated manifest parser and sector
sequencer (`parse_logistics_data`), the location resolver
(`_coords_for_location`, `_iata_from_unlocode`, `_geocode_query`), the
distance helper (`_distance_between`), and the emission engine
(`get_emission_factor`, `calculate_shipment_emissions`).

Modelling conventions:
- Python `float` values are modelled as exact rationals (`ℚ`); the
  properties under study concern which formula is computed, not binary
  rounding of IEEE doubles.
- External services (Nominatim geocoding, the Google geocoding fallback,
  and geopy's geodesic computation) are modelled as oracle functions
  passed in as parameters; a `none` result models both an empty response
  and a raised exception.
- Python strings are modelled as Lean `String`; helpers named `py*`
  reproduce the Python string primitives used by the source
  (`str.strip`, `str.upper`, `str.lower`, substring `in`,
  `str.startswith`, `str.split()`).
-/

namespace CarbonCalc

/-! ### Python string primitives -/

/-- `str.strip()` on the underlying character list: drop whitespace from
both ends.  Python strips the same ASCII whitespace as
`Char.isWhitespace` on the inputs considered here. -/
def stripL (l : List Char) : List Char :=
  ((l.dropWhile Char.isWhitespace).reverse.dropWhile Char.isWhitespace).reverse

/-- `str.strip()`. -/
def pyStrip (s : String) : String := ⟨stripL s.data⟩

/-- `str.upper()` (ASCII, as in all strings the source compares). -/
def pyUpper (s : String) : String := ⟨s.data.map Char.toUpper⟩

/-- `str.lower()`. -/
def pyLower (s : String) : String := ⟨s.data.map Char.toLower⟩

/-- Whether `p` is an initial segment of `s` (character lists). -/
def startsWithL : List Char → List Char → Bool
  | [], _ => true
  | _ :: _, [] => false
  | p :: ps, c :: cs => p == c && startsWithL ps cs

/-- Whether `pat` occurs as a contiguous substring (Python `pat in s`). -/
def containsL (pat : List Char) : List Char → Bool
  | [] => pat.isEmpty
  | c :: cs => startsWithL pat (c :: cs) || containsL pat cs

/-- Python `pat in hay`. -/
def pyContains (hay pat : String) : Bool := containsL pat.data hay.data

/-- Python `s.startswith(pre)`. -/
def pyStartswith (s pre : String) : Bool := startsWithL pre.data s.data

/-- Auxiliary for `str.split()` with no separator: split on whitespace
runs, discarding empty pieces. -/
def splitWsAux : List Char → List Char → List String
  | [], cur => if cur.isEmpty then [] else [⟨cur.reverse⟩]
  | c :: cs, cur =>
      if c.isWhitespace then
        if cur.isEmpty then splitWsAux cs [] else ⟨cur.reverse⟩ :: splitWsAux cs []
      else splitWsAux cs (c :: cur)

/-- Python `s.split()`. -/
def pySplitWs (s : String) : List String := splitWsAux s.data []

/-- Split on newline characters, keeping empty pieces (Python
`s.split('\n')`). -/
def splitNlAux : List Char → List Char → List String
  | [], cur => [⟨cur.reverse⟩]
  | c :: cs, cur =>
      if c == '\n' then ⟨cur.reverse⟩ :: splitNlAux cs []
      else splitNlAux cs (c :: cur)

/-- `text.strip().split('\n')` as used at the top of
`parse_logistics_data`. -/
def pyLines (text : String) : List String := splitNlAux (pyStrip text).data []

/-! ### Regular-expression fragments used by the source -/

/-- One step of `re.match(r'\d{1,2}/', ...)`: consume one or two digits
followed by a slash (greedy with backtracking, as the Python `re`
engine behaves). -/
def matchDMSlash : List Char → Option (List Char)
  | a :: b :: c :: rest =>
      if a.isDigit && b.isDigit && c == '/' then some rest
      else if a.isDigit && b == '/' then some (c :: rest)
      else none
  | [a, b] => if a.isDigit && b == '/' then some [] else none
  | _ => none

/-- Four digits follow (`\d{4}`, prefix match, trailing text free). -/
def fourDigits : List Char → Bool
  | a :: b :: c :: d :: _ => a.isDigit && b.isDigit && c.isDigit && d.isDigit
  | _ => false

/-- `re.match(r'\d{1,2}/\d{1,2}/\d{4}', s)`: the date-shape test applied
to each candidate flight date (server.py line 333). -/
def isValidDateFmt (s : String) : Bool :=
  match matchDMSlash s.data with
  | none => false
  | some r1 =>
    match matchDMSlash r1 with
    | none => false
    | some r2 => fourDigits r2

/-- After the leading digit of `re.match(r'^\d+\t', line)`: further
digits then a tab. -/
def afterDigits : List Char → Bool
  | [] => false
  | c :: cs => c == '\t' || (c.isDigit && afterDigits cs)

/-- `re.match(r'^\d+\t', line)` (server.py line 280): the line starts a
new record. -/
def startsNumTab (s : String) : Bool :=
  match s.data with
  | [] => false
  | c :: cs => c.isDigit && afterDigits cs

/-! ### Header-line filtering and continuation folding -/

/-- `any(x in line for x in ['Ref No', 'Pickup From', 'Origin',
'1st sector'])` (server.py line 276). -/
def containsHeaderToken (line : String) : Bool :=
  pyContains line "Ref No" || pyContains line "Pickup From" ||
  pyContains line "Origin" || pyContains line "1st sector"

/-- The clean-up loop of `parse_logistics_data` (server.py lines
274-287): skip header lines; a line starting `<digits><tab>` begins a
new record when one is pending; any other line is folded into the
pending record with a space. -/
def cleanLoop : List String → String → List String
  | [], cur => if cur = "" then [] else [cur]
  | l :: ls, cur =>
      if containsHeaderToken l then cleanLoop ls cur
      else if startsNumTab l && cur ≠ "" then cur :: cleanLoop ls l
      else cleanLoop ls (cur ++ " " ++ pyStrip l)

/-- The cleaned logical records of the input text. -/
def cleanLines (text : String) : List String := cleanLoop (pyLines text) ""

/-! ### Quote-aware tab tokenizer (`csv.reader(..., delimiter='\t',
quotechar='"')`) -/

/-- States of the Python `_csv` field scanner (non-strict dialect,
`doublequote=True`). -/
inductive CsvSt
  | startField
  | inField
  | inQuoted
  | quoteQ
deriving Repr, DecidableEq

/-- The `_csv` scanner over one line.  `field` holds the current field
reversed, `acc` the completed fields reversed. -/
def csvAux : List Char → CsvSt → List Char → List (List Char) → List (List Char)
  | [], _, field, acc => field.reverse :: acc
  | c :: cs, CsvSt.startField, field, acc =>
      if c == '\t' then csvAux cs CsvSt.startField [] (field.reverse :: acc)
      else if c == '"' then csvAux cs CsvSt.inQuoted field acc
      else csvAux cs CsvSt.inField (c :: field) acc
  | c :: cs, CsvSt.inField, field, acc =>
      if c == '\t' then csvAux cs CsvSt.startField [] (field.reverse :: acc)
      else csvAux cs CsvSt.inField (c :: field) acc
  | c :: cs, CsvSt.inQuoted, field, acc =>
      if c == '"' then csvAux cs CsvSt.quoteQ field acc
      else csvAux cs CsvSt.inQuoted (c :: field) acc
  | c :: cs, CsvSt.quoteQ, field, acc =>
      if c == '"' then csvAux cs CsvSt.inQuoted (c :: field) acc
      else if c == '\t' then csvAux cs CsvSt.startField [] (field.reverse :: acc)
      else csvAux cs CsvSt.inField (c :: field) acc

/-- `next(csv.reader(StringIO(line), delimiter='\t', quotechar='"'))`
(server.py lines 293-294).  (On the empty line Python yields no row and
the `except` clause skips the line; here the empty line tokenizes to a
single empty column and is skipped by the `< 6` guard — the same
observable outcome.) -/
def tokenizeTabQuoted (line : String) : List String :=
  ((csvAux line.data CsvSt.startField [] []).reverse).map (fun l => ⟨l⟩)

/-! ### Data model -/

/-- One leg of a shipment (the per-sector dict built by
`parse_logistics_data`; the Python keys `from`/`to` are `from_`/`to_`
here because `from` is a Lean keyword). -/
structure Sector where
  sector : Nat
  mode : String
  from_ : String
  to_ : String
  transport_number : Option String
  transport_date : Option String
  distance_km : Option ℚ
deriving Repr, DecidableEq

/-- The shipment dict built by `parse_logistics_data`. -/
structure Shipment where
  ref_no : String
  pickup_from : String
  origin : String
  destination : String
  delivery_to : String
  sectors : List Sector
  transport_type : String
deriving Repr, DecidableEq

/-! ### Sector construction (server.py lines 304-399) -/

/-- `if ref_no.startswith("A") ... elif ref_no.startswith("S") ...`
(server.py lines 313-318). -/
def transportTypeOf (ref_no : String) : String :=
  if pyStartswith ref_no "A" then "AIR"
  else if pyStartswith ref_no "S" then "SEA"
  else "UNKNOWN"

/-- The AIR while-loop (server.py lines 325-345): starting at column 7,
consume groups of four columns (date, flight number, from, to) while at
least four columns remain and the date matches the date shape.
`remaining` is `columns[current_index:]`. -/
def airLegsFrom : List String → Nat → List Sector
  | d :: n :: f :: t :: rest, k =>
      if isValidDateFmt d then
        { sector := k, mode := "AIR", from_ := f, to_ := t,
          transport_number := some n, transport_date := some d,
          distance_km := none } :: airLegsFrom rest (k + 1)
      else []
  | _, _ => []

/-- The base legs before TRUCK insertion: AIR quadruples for "A"
references, a single synthetic SEA leg for "S" references, nothing
otherwise (server.py lines 323-357). -/
def baseSectors (transport_type origin destination : String) (cols : List String) :
    List Sector :=
  if transport_type = "AIR" then airLegsFrom (cols.drop 6) 1
  else if transport_type = "SEA" then
    [{ sector := 1, mode := "SEA", from_ := origin, to_ := destination,
       transport_number := none, transport_date := none, distance_km := none }]
  else []

/-- `_is_no_pickup` (server.py lines 360-361). -/
def _is_no_pickup (val : String) : Bool :=
  let v := pyUpper (pyStrip val)
  v = "" || v = "NO PICKUP" || v = "N/A" || v = "NA" || v = "NONE"

/-- The prepended pickup TRUCK leg (server.py lines 364-371). -/
def pickupTruck (pickup_from origin transport_type : String) : Sector :=
  { sector := 1, mode := "TRUCK", from_ := pickup_from,
    to_ := if transport_type = "AIR" then origin ++ " airport" else origin ++ " seaport",
    transport_number := none, transport_date := none, distance_km := none }

/-- The always-appended delivery TRUCK leg (server.py lines 377-385). -/
def deliveryTruck (destination delivery_to transport_type : String) (secNo : Nat) :
    Sector :=
  { sector := secNo, mode := "TRUCK",
    from_ := if transport_type = "AIR" then destination ++ " airport"
             else destination ++ " seaport",
    to_ := delivery_to, transport_number := none, transport_date := none,
    distance_km := none }

/-- `for idx, s in enumerate(sectors, start=1): s['sector'] = idx`. -/
def renumberFrom : Nat → List Sector → List Sector
  | _, [] => []
  | n, s :: rest => { s with sector := n } :: renumberFrom (n + 1) rest

/-- TRUCK insertion and renumbering (server.py lines 359-385). -/
def sequenceSectors (transport_type pickup_from origin destination delivery_to : String)
    (base : List Sector) : List Sector :=
  let withPickup :=
    if _is_no_pickup pickup_from then base
    else renumberFrom 1 (pickupTruck pickup_from origin transport_type :: base)
  let last_no := match withPickup.getLast? with
    | some s => s.sector
    | none => 0
  withPickup ++ [deliveryTruck destination delivery_to transport_type (last_no + 1)]

/-- Per-record parsing given the stripped columns (server.py lines
300-400).  `dist` abstracts `_distance_between`, which in the stable
server always returns a number. -/
def parseCols (dist : String → String → ℚ) (cols : List String) : Option Shipment :=
  if cols.length < 6 then none
  else
    let ref_no := cols.getD 1 ""
    let pickup_from := cols.getD 2 ""
    let origin := cols.getD 3 ""
    let destination := cols.getD 4 ""
    let delivery_to := cols.getD 5 ""
    let transport_type := transportTypeOf ref_no
    let sectors := sequenceSectors transport_type pickup_from origin destination
      delivery_to (baseSectors transport_type origin destination cols)
    let sectors := sectors.map (fun s => { s with distance_km := some (dist s.from_ s.to_) })
    some { ref_no := ref_no, pickup_from := pickup_from, origin := origin,
           destination := destination, delivery_to := delivery_to,
           sectors := sectors, transport_type := transport_type }

/-- One cleaned line: tokenize, strip every column, parse. -/
def parseLine (dist : String → String → ℚ) (line : String) : Option Shipment :=
  parseCols dist ((tokenizeTabQuoted line).map pyStrip)

/-- `parse_logistics_data` (server.py lines 267-406), with the distance
computation abstracted as `dist`. -/
def parse_logistics_data (dist : String → String → ℚ) (text : String) : List Shipment :=
  (cleanLines text).filterMap (parseLine dist)

/-! ### Emission factors and aggregation (server.py lines 460-530) -/

/-- `EF_TABLE["road"].get(subtype, EF_TABLE["road"]["heavy_avg"])`. -/
def EF_road (subtype : String) : ℚ :=
  if subtype = "heavy_full" then 0.05
  else if subtype = "heavy_avg" then 0.08
  else if subtype = "medium" then 0.20
  else if subtype = "light" then 0.40
  else 0.08

/-- `EF_TABLE["air"][key]`. -/
def EF_air (key : String) : ℚ :=
  if key = "freighter_long" then 0.50
  else if key = "belly_long" then 0.77
  else if key = "freighter_short" then 1.20
  else if key = "belly_short" then 0.98
  else 0

/-- `EF_TABLE["sea"].get(subtype, EF_TABLE["sea"]["container"])`. -/
def EF_sea (subtype : String) : ℚ :=
  if subtype = "container" then 0.015
  else if subtype = "bulk_carrier" then 0.010
  else if subtype = "tanker" then 0.012
  else if subtype = "general_cargo" then 0.020
  else 0.015

/-- `SHORT_HAUL_MAX_KM = 1500`. -/
def SHORT_HAUL_MAX_KM : ℚ := 1500

/-- `get_emission_factor` (server.py lines 484-497).  A `none` distance
models Python `None`, which the function replaces by `0`. -/
def get_emission_factor (mode subtype : String) (distance_km : Option ℚ) : ℚ :=
  if mode = "TRUCK" then EF_road subtype
  else if mode = "AIR" then
    let d := distance_km.getD 0
    if d ≤ SHORT_HAUL_MAX_KM then
      if subtype = "freighter" then EF_air "freighter_short" else EF_air "belly_short"
    else
      if subtype = "freighter" then EF_air "freighter_long" else EF_air "belly_long"
  else if mode = "SEA" then EF_sea subtype
  else 0

/-- Per-sector emission record (`{**s, "emission_factor": ef,
"emissions_kg": emissions}`). -/
structure SectorEmission where
  base : Sector
  emission_factor : ℚ
  emissions_kg : ℚ
deriving Repr, DecidableEq

/-- The result dict of `calculate_shipment_emissions`. -/
structure EmissionResult where
  ref_no : String
  total_emissions_kg : ℚ
  by_sector : List SectorEmission
deriving Repr, DecidableEq

/-- The per-mode subtype selection inside the loop of
`calculate_shipment_emissions` (server.py lines 513-520). -/
def subtypeFor (road_subtype air_subtype sea_subtype mode : String) : String :=
  if mode = "TRUCK" then road_subtype
  else if mode = "AIR" then air_subtype
  else if mode = "SEA" then sea_subtype
  else "default"

/-- One iteration of the loop of `calculate_shipment_emissions`
(server.py lines 510-525): `dist = s.get("distance_km") or 0.0`, factor
lookup, `emissions = weight_t * dist * ef`. -/
def sectorEmission (weight_t : ℚ) (road_subtype air_subtype sea_subtype : String)
    (s : Sector) : SectorEmission :=
  let dist := s.distance_km.getD 0
  let subtype := subtypeFor road_subtype air_subtype sea_subtype s.mode
  let ef := get_emission_factor s.mode subtype (some dist)
  { base := s, emission_factor := ef, emissions_kg := weight_t * dist * ef }

/-- `calculate_shipment_emissions` (server.py lines 499-530).  The
Python defaults are `road_subtype="heavy_avg"`, `air_subtype="belly"`,
`sea_subtype="container"`; callers here pass them explicitly. -/
def calculate_shipment_emissions (shipment : Shipment) (weight_kg : ℚ)
    (road_subtype air_subtype sea_subtype : String) : EmissionResult :=
  let weight_t := weight_kg / 1000
  let results := shipment.sectors.map
    (sectorEmission weight_t road_subtype air_subtype sea_subtype)
  { ref_no := shipment.ref_no,
    total_emissions_kg := results.foldl (fun acc r => acc + r.emissions_kg) 0,
    by_sector := results }

/-! ### Location resolution (server.py lines 29-207) -/

/-- A latitude/longitude pair. -/
abbrev Coords := ℚ × ℚ

/-- The static `IATA_COORDS` table (server.py lines 30-51). -/
def IATA_COORDS : List (String × Coords) :=
  [("ZRH", (47.458056, 8.548056)),
   ("JFK", (40.641311, -73.778139)),
   ("SIN", (1.364420, 103.991531)),
   ("DXB", (25.253174, 55.365673)),
   ("ICN", (37.460190, 126.440696)),
   ("CNSHA", (31.2304, 121.4737)),
   ("CNZOS", (30.0440, 122.1391)),
   ("CNSZX", (22.5350, 113.9400)),
   ("CNTAO", (36.0831, 120.3859)),
   ("CNCAN", (23.1096, 113.3246)),
   ("KRPUS", (35.1036, 129.0400)),
   ("CNTSN", (39.0860, 117.2179)),
   ("HKHKG", (22.3080, 114.2000)),
   ("NLRTM", (51.9470, 4.1367)),
   ("PHMNS", (14.5833, 120.9667)),
   ("PKKHI", (24.8100, 66.9700))]

/-- Python `code in IATA_COORDS` / `IATA_COORDS[code]`. -/
def iataLookup (code : String) : Option Coords :=
  (IATA_COORDS.find? (fun p => p.1 == code)).map (fun p => p.2)

/-- `_iata_from_unlocode` (server.py lines 53-64). -/
def _iata_from_unlocode (code : String) : Option String :=
  if code = "" then none
  else
    let c : String := ⟨(pyUpper (pyStrip code)).data.filter (fun ch => ch ≠ ' ')⟩
    if c.length = 5 && (c.data.take 2).all Char.isAlpha &&
        (c.data.drop 2).all Char.isAlphanum then
      some ⟨c.data.drop 2⟩
    else if (c.length = 3 || c.length = 4 || c.length = 5) &&
        c.data.all Char.isAlpha then
      some c
    else none

/-- Length of the leading alphabetic run. -/
def alphaRun (cs : List Char) : Nat := (cs.takeWhile Char.isAlpha).length

/-- `re.match(r'^([A-Z]{3,5})\s+<word>', s, re.IGNORECASE)`: with the
backtracking of `{3,5}` this succeeds exactly when the leading
alphabetic run has length 3-5 and is followed by whitespace and the
literal word (case-insensitively); the returned group is uppercased as
in `code_match.group(1).upper()`. -/
def matchCodeWord (word : List Char) (cs : List Char) : Option (List Char) :=
  let k := alphaRun cs
  if 3 ≤ k && k ≤ 5 then
    let rest := cs.drop k
    let ws := (rest.takeWhile Char.isWhitespace).length
    if 1 ≤ ws && startsWithL word ((rest.drop ws).map Char.toLower) then
      some ((cs.take k).map Char.toUpper)
    else none
  else none

/-- Word characters for `\b` (`\w`: letters, digits, underscore). -/
def isWordChar (c : Char) : Bool := c.isAlphanum || c == '_'

/-- `\b` at the position after a match: end of string or a non-word
character. -/
def boundaryAfter : List Char → Bool
  | [] => true
  | c :: _ => !isWordChar c

/-- The pattern `([A-Z]{3,5})\s+airport\b` tried at one position.  The
literal `airport` is lowercase and the pattern carries no IGNORECASE
flag; since the source applies it to `s.upper()`, this search can in
fact never succeed there — the embedding keeps the literal as
written. -/
def matchCodeAirportAt (cs : List Char) : Option String :=
  let k := (cs.takeWhile Char.isUpper).length
  if 3 ≤ k && k ≤ 5 then
    let rest := cs.drop k
    let ws := (rest.takeWhile Char.isWhitespace).length
    let after := rest.drop ws
    if 1 ≤ ws && startsWithL "airport".data after &&
        boundaryAfter (after.drop 7) then
      some ⟨cs.take k⟩
    else none
  else none

/-- `re.search(r'([A-Z]{3,5})\s+airport\b', s.upper())` (server.py line
153): leftmost position at which the pattern matches. -/
def searchCodeAirport : List Char → Option String
  | [] => none
  | c :: cs =>
      match matchCodeAirportAt (c :: cs) with
      | some g => some g
      | none => searchCodeAirport cs

/-- The first `n` characters exist and are digits. -/
def digitRunAt (cs : List Char) (n : Nat) : Bool :=
  (cs.take n).length = n && (cs.take n).all Char.isDigit

/-- `re.search(r'\b(\d{6})\b', s)` (server.py line 172).  `prevWord`
records whether the preceding character was a word character (for the
left boundary). -/
def search6 (prevWord : Bool) : List Char → Option String
  | [] => none
  | c :: cs =>
      if !prevWord && digitRunAt (c :: cs) 6 && boundaryAfter ((c :: cs).drop 6) then
        some ⟨(c :: cs).take 6⟩
      else search6 (isWordChar c) cs

/-- Whether `-\d{4}\b` follows the five digits of a ZIP candidate. -/
def zipLongAt (l : List Char) : Bool :=
  match l.drop 5 with
  | '-' :: r => digitRunAt r 4 && boundaryAfter (r.drop 4)
  | _ => false

/-- `re.search(r'\b(\d{5}(?:-\d{4})?)\b', s)` (server.py line 178): the
optional `-\d{4}` group is tried greedily, falling back to the bare
five digits when its trailing boundary fails. -/
def searchZip (prevWord : Bool) : List Char → Option String
  | [] => none
  | c :: cs =>
      if !prevWord && digitRunAt (c :: cs) 5 && zipLongAt (c :: cs) then
        some ⟨(c :: cs).take 10⟩
      else if !prevWord && digitRunAt (c :: cs) 5 && boundaryAfter ((c :: cs).drop 5) then
        some ⟨(c :: cs).take 5⟩
      else searchZip (isWordChar c) cs

/-- Step 1 of `_coords_for_location` (server.py lines 118-130): extract
a port code before "seaport"/"port" and look it up in the static
table (also via the UN/LOCODE tail for 5-letter codes). -/
def step1Ports (s : String) : Option Coords :=
  if pyContains (pyLower s) "seaport" || pyContains (pyLower s) "port" then
    match (matchCodeWord "seaport".data s.data).orElse
        (fun _ => matchCodeWord "port".data s.data) with
    | some codeL =>
        (iataLookup ⟨codeL⟩).orElse
          (fun _ => if codeL.length = 5 then iataLookup ⟨codeL.drop 2⟩ else none)
    | none => none
  else none

/-- Step 2 of `_coords_for_location` (server.py lines 132-139): UN/LOCODE
or bare IATA code from the whole string; `g` abstracts the memoized
`_geocode_query`. -/
def step2Unlo (g : String → Option Coords) (s : String) : Option Coords :=
  match _iata_from_unlocode s with
  | some iata => (iataLookup iata).orElse (fun _ => g (iata ++ " airport"))
  | none => none

/-- Step 3 of `_coords_for_location` (server.py lines 141-160): strings
containing "airport" — first token as UN/LOCODE, then a 3-5 letter code
just before "airport". -/
def step3Airport (g : String → Option Coords) (s : String) : Option Coords :=
  if pyContains (pyLower s) "airport" then
    let first_tok := pyUpper ((pySplitWs s).getD 0 "")
    let viaTok : Option Coords :=
      if first_tok.length = 5 && (first_tok.data.take 2).all Char.isAlpha then
        (iataLookup ⟨first_tok.data.drop 2⟩).orElse
          (fun _ => g (String.mk (first_tok.data.drop 2) ++ " airport"))
      else none
    match viaTok with
    | some c => some c
    | none =>
        match searchCodeAirport (pyUpper s).data with
        | some iata3 => (iataLookup iata3).orElse (fun _ => g (iata3 ++ " airport"))
        | none => none
  else none

/-- `_coords_for_location` (server.py lines 110-184). -/
def _coords_for_location (g : String → Option Coords) (loc_str : String) :
    Option Coords :=
  if loc_str = "" then none
  else
    let s := pyStrip loc_str
    (step1Ports s).orElse (fun _ =>
    (step2Unlo g s).orElse (fun _ =>
    (step3Airport g s).orElse (fun _ =>
    (iataLookup s).orElse (fun _ =>
    (g s).orElse (fun _ =>
    ((search6 false s.data).bind g).orElse (fun _ =>
    (searchZip false s.data).bind g))))))

/-- Python `round(x, 1)` on the model rationals: round half to even at
one decimal. -/
def pyRound1 (q : ℚ) : ℚ :=
  let y := q * 10
  let f : ℤ := ⌊y⌋
  let r := y - f
  let n : ℤ := if r < 1/2 then f else if 1/2 < r then f + 1
    else if f % 2 = 0 then f else f + 1
  (n : ℚ) / 10

/-- `_distance_between` (server.py lines 186-207) in the stable server:
`geo` abstracts `geodesic(...).kilometers` (with `none` modelling a
raised exception); any resolution or computation failure yields `0.0`. -/
def _distance_between (g : String → Option Coords)
    (geo : Coords → Coords → Option ℚ) (a b : String) : ℚ :=
  match _coords_for_location g a, _coords_for_location g b with
  | some ca, some cb =>
      match geo ca cb with
      | some km => pyRound1 km
      | none => 0
  | _, _ => 0

/-- `parse_logistics_data` with the distance function instantiated to
the real `_distance_between` over the geocoding and geodesic oracles. -/
def parse_with_geo (g : String → Option Coords)
    (geo : Coords → Coords → Option ℚ) (text : String) : List Shipment :=
  parse_logistics_data (_distance_between g geo) text

/-! ### The memoized geocoding wrappers (server.py lines 66-108)

`_geocode_query` and `_geocode_google` each carry
`@lru_cache(maxsize=512)`.  To reason about external call volume the
two caches and a call counter are threaded explicitly; `nom` and `goog`
are the Nominatim and Google oracles (with `none` modelling an empty or
failed response).  A Python `lru_cache` hit moves the entry to
most-recently-used; a miss inserts at most-recently-used and evicts the
least-recently-used entry beyond `maxsize`. -/

/-- The process-wide mutable state: the two `lru_cache` instances (most
recently used first) and the number of external provider calls made. -/
structure GeoCache where
  query_cache : List (String × Option Coords)
  google_cache : List (String × Option Coords)
  external_calls : Nat
deriving Repr, DecidableEq

/-- Cached value for `q`, if present. -/
def lruLookup (c : List (String × Option Coords)) (q : String) :
    Option (Option Coords) :=
  (c.find? (fun p => p.1 == q)).map (fun p => p.2)

/-- Move the entry for `q` (holding `v`) to most-recently-used. -/
def lruTouch (c : List (String × Option Coords)) (q : String) (v : Option Coords) :
    List (String × Option Coords) :=
  (q, v) :: c.filter (fun p => p.1 ≠ q)

/-- Insert a fresh entry at most-recently-used, evicting beyond
`maxsize`. -/
def lruInsert (c : List (String × Option Coords)) (q : String) (v : Option Coords)
    (maxsize : Nat) : List (String × Option Coords) :=
  ((q, v) :: c).take maxsize

/-- `_geocode_google` (server.py lines 66-90) with its `lru_cache`: a
miss costs one external call to the Google API. -/
def _geocode_google_c (goog : String → Option Coords) (st : GeoCache) (q : String) :
    Option Coords × GeoCache :=
  match lruLookup st.google_cache q with
  | some v => (v, { st with google_cache := lruTouch st.google_cache q v })
  | none =>
      let res := goog q
      (res, { st with google_cache := lruInsert st.google_cache q res 512,
                      external_calls := st.external_calls + 1 })

/-- `_geocode_query` (server.py lines 92-108) with its `lru_cache`: a
miss contacts Nominatim (one external call); on a Nominatim failure the
Google fallback is consulted (through its own cache); the result —
success or `None` — is cached. -/
def _geocode_query_c (nom goog : String → Option Coords) (st : GeoCache)
    (q : String) : Option Coords × GeoCache :=
  match lruLookup st.query_cache q with
  | some v => (v, { st with query_cache := lruTouch st.query_cache q v })
  | none =>
      match nom q with
      | some v =>
          (some v, { st with query_cache := lruInsert st.query_cache q (some v) 512,
                             external_calls := st.external_calls + 1 })
      | none =>
          let st1 := { st with external_calls := st.external_calls + 1 }
          let r := _geocode_google_c goog st1 q
          (r.1, { r.2 with query_cache := lruInsert r.2.query_cache q r.1 512 })

/-- Run a sequence of `_geocode_query` invocations, threading the
process state. -/
def runQueries (nom goog : String → Option Coords) :
    List String → GeoCache → GeoCache
  | [], st => st
  | q :: qs, st => runQueries nom goog qs (_geocode_query_c nom goog st q).2

/-! ### Concrete instances used by the individual claims -/

/-- A geocoding oracle on which every free-text lookup fails. -/
def gNone : String → Option Coords := fun _ => none

/-- A geodesic oracle reporting 2000 km for every coordinate pair
(2000 km is above the 1500 km short-haul threshold). -/
def geoConst2000 : Coords → Coords → Option ℚ := fun _ _ => some 2000

/-- A geodesic oracle on which the computation always fails. -/
def geoNone : Coords → Coords → Option ℚ := fun _ _ => none

/-- The end-to-end manifest line of the specification. -/
def lineC1 : String :=
  "1\tA001\tNO PICKUP\tSGSIN\tKRICN\t\"123 Main St\"\t3/7/2025\tSQ600\tSGSIN\tKRICN"

/-- A SEA manifest line whose pickup field is the "NO PICKUP"
sentinel. -/
def lineC2 : String := "1\tS001\tNO PICKUP\tSGSIN\tKRPUS\tSomewhere"

/-- A shipment with one AIR sector whose distance is missing, for
exercising the aggregator. -/
def shMissingDist : Shipment :=
  { ref_no := "A077", pickup_from := "NO PICKUP", origin := "SGSIN",
    destination := "KRICN", delivery_to := "X",
    sectors := [{ sector := 1, mode := "AIR", from_ := "SGSIN", to_ := "KRICN",
                  transport_number := some "SQ600", transport_date := some "3/7/2025",
                  distance_km := none }],
    transport_type := "AIR" }

/-- A distance function that is identically zero, for structural
witnesses. -/
def zeroDist : String → String → ℚ := fun _ _ => 0

/-- A Nominatim oracle that answers every query. -/
def nomConst : String → Option Coords := fun _ => some (0, 0)

/-- The process state at start-up: both caches empty, no external calls
made. -/
def emptyGeoCache : GeoCache :=
  { query_cache := [], google_cache := [], external_calls := 0 }

/-- The n-th distinct location string of the eviction scenario. -/
def qA (n : Nat) : String := ⟨List.replicate n 'a'⟩

/-- 513 pairwise distinct location strings: one more than the
`lru_cache` capacity. -/
def qsEvict : List String := (List.range 513).map qA

/-- The process state after resolving the 513 distinct strings in
order, starting from an empty cache. -/
def stEvict : GeoCache := runQueries nomConst nomConst qsEvict emptyGeoCache

/-! ## General lemmas -/

theorem foldl_add_emissions (l : List SectorEmission) (init : ℚ) :
    l.foldl (fun acc r => acc + r.emissions_kg) init
      = init + (l.map SectorEmission.emissions_kg).sum := by
  induction l generalizing init with
  | nil => simp
  | cons a t ih => simp [ih, add_assoc]

theorem get_emission_factor_getD (m st : String) (o : Option ℚ) :
    get_emission_factor m st (some (o.getD 0)) = get_emission_factor m st o := by
  cases o <;> rfl

theorem gef_air_unfold (subtype : String) (o : Option ℚ) :
    get_emission_factor "AIR" subtype o =
      if o.getD 0 ≤ 1500 then
        (if subtype = "freighter" then EF_air "freighter_short"
         else EF_air "belly_short")
      else
        (if subtype = "freighter" then EF_air "freighter_long"
         else EF_air "belly_long") := by
  rw [get_emission_factor, if_neg (by decide), if_pos rfl]
  rfl

theorem filterMap_eq_filterMap_filter {α β : Type} (f : α → Option β) (p : α → Bool)
    (h : ∀ a, p a = false → f a = none) (l : List α) :
    l.filterMap f = (l.filter p).filterMap f := by
  induction l with
  | nil => rfl
  | cons a t ih =>
      by_cases hp : p a
      · simp only [List.filter_cons, hp, if_true, List.filterMap_cons, ih]
      · rw [List.filter_cons, if_neg (by simp [hp]), List.filterMap_cons,
          h a (by simp [hp]), ih]

theorem data_append (a b : String) : (a ++ b).data = a.data ++ b.data := rfl

theorem pyStartswith_A_of_S (ref : String) (h : pyStartswith ref "S" = true) :
    pyStartswith ref "A" = false := by
  obtain ⟨l⟩ := ref
  cases l with
  | nil => exact absurd h (by decide)
  | cons c cs =>
      have hc : c = 'S' := by
        have h2 : ('S' == c) && startsWithL [] cs = true := h
        simp only [Bool.and_eq_true, beq_iff_eq] at h2
        exact h2.1.symm
      subst hc
      show startsWithL ['A'] ('S' :: cs) = false
      simp [startsWithL]

theorem transportTypeOf_S (ref : String) (h : pyStartswith ref "S" = true) :
    transportTypeOf ref = "SEA" := by
  rw [transportTypeOf, pyStartswith_A_of_S ref h]
  simp [h]

theorem airLegsFrom_mode : ∀ (rem : List String) (k : Nat) (s : Sector),
    s ∈ airLegsFrom rem k → s.mode = "AIR"
  | d :: n :: f :: t :: rest, k, s, hs => by
      rw [airLegsFrom] at hs
      by_cases hv : isValidDateFmt d
      · rw [if_pos hv] at hs
        rcases List.mem_cons.mp hs with hs | hs
        · subst hs; rfl
        · exact airLegsFrom_mode rest (k + 1) s hs
      · rw [if_neg hv] at hs
        exact absurd hs (List.not_mem_nil s)
  | [], _, s, hs => by simp [airLegsFrom] at hs
  | [d], _, s, hs => by simp [airLegsFrom] at hs
  | [d, n], _, s, hs => by simp [airLegsFrom] at hs
  | [d, n, f], _, s, hs => by simp [airLegsFrom] at hs

/-- After dropping leading whitespace of `x ++ ' ' :: tail`, the suffix
`tail` survives; and when `tail` begins and ends with non-whitespace
characters, trimming on the right removes nothing, so `tail` is a
suffix of the stripped string. -/
theorem stripL_append_keeps_tail (x tail : List Char) (c : Char)
    (hc : c.isWhitespace = false) (htail : tail.getLast? = some c)
    (hhead : ∃ h t, tail = h :: t ∧ h.isWhitespace = false) :
    tail <:+ stripL (x ++ (' ' :: tail)) := by
  obtain ⟨h0, t0, htl, hh⟩ := hhead
  have hsuffix : ∃ u, (x ++ (' ' :: tail)).dropWhile Char.isWhitespace = u ++ tail := by
    rw [List.dropWhile_append]
    by_cases he : (x.dropWhile Char.isWhitespace).isEmpty = true
    · rw [if_pos he, List.dropWhile_cons, if_pos (by decide), htl,
        List.dropWhile_cons, if_neg (by simp [hh])]
      exact ⟨[], rfl⟩
    · rw [if_neg he]
      exact ⟨x.dropWhile Char.isWhitespace ++ [' '], by simp⟩
  obtain ⟨u, hu⟩ := hsuffix
  have hlast : (u ++ tail).getLast? = some c := by
    cases u with
    | nil => simpa using htail
    | cons a as =>
        rw [List.getLast?_append_of_ne_nil]
        · exact htail
        · rw [htl]; exact List.cons_ne_nil _ _
  have hrev : ∃ z, (u ++ tail).reverse = c :: z := by
    have h1 : (u ++ tail).reverse.head? = some c := by
      rw [List.head?_reverse]; exact hlast
    cases hrv : (u ++ tail).reverse with
    | nil => rw [hrv] at h1; exact absurd h1 (by simp)
    | cons a as =>
        rw [hrv] at h1
        obtain rfl : a = c := by simpa using h1
        exact ⟨as, rfl⟩
  obtain ⟨z, hz⟩ := hrev
  have : stripL (x ++ (' ' :: tail)) = u ++ tail := by
    rw [stripL, hu, hz, List.dropWhile_cons, if_neg (by simp [hc]), ← hz,
      List.reverse_reverse]
  rw [this]
  exact ⟨u, rfl⟩

/-- A string of the form `x ++ " airport"` or `x ++ " seaport"` can
never satisfy the no-pickup sentinel test: after stripping and
uppercasing it still ends in `AIRPORT`/`SEAPORT`, which none of the
five sentinel strings do. -/
theorem facility_not_sentinel (x w : String)
    (hw : w = " airport" ∨ w = " seaport") :
    _is_no_pickup (x ++ w) = false := by
  by_contra hcon
  rw [Bool.not_eq_false] at hcon
  have hor : (((pyUpper (pyStrip (x ++ w)) = "" ∨
      pyUpper (pyStrip (x ++ w)) = "NO PICKUP") ∨
      pyUpper (pyStrip (x ++ w)) = "N/A") ∨
      pyUpper (pyStrip (x ++ w)) = "NA") ∨
      pyUpper (pyStrip (x ++ w)) = "NONE" := by
    simpa [_is_no_pickup, decide_eq_true_eq] using hcon
  have hsfx : "AIRPORT".data <:+ (pyUpper (pyStrip (x ++ w))).data ∨
      "SEAPORT".data <:+ (pyUpper (pyStrip (x ++ w))).data := by
    rcases hw with rfl | rfl
    · left
      have h1 : "airport".data <:+ stripL (x.data ++ (' ' :: "airport".data)) :=
        stripL_append_keeps_tail x.data "airport".data 't' (by decide) (by decide)
          ⟨'a', _, rfl, by decide⟩
      exact List.IsSuffix.map Char.toUpper h1
    · right
      have h1 : "seaport".data <:+ stripL (x.data ++ (' ' :: "seaport".data)) :=
        stripL_append_keeps_tail x.data "seaport".data 't' (by decide) (by decide)
          ⟨'s', _, rfl, by decide⟩
      exact List.IsSuffix.map Char.toUpper h1
  rcases hor with ((((h | h) | h) | h) | h) <;>
    rw [congrArg String.data h] at hsfx <;>
    rcases hsfx with h2 | h2 <;> exact absurd h2 (by decide)

/-! ## C4: AIR distance-band selection in `get_emission_factor` -/

/-- C4: `get_emission_factor("AIR", "belly", 1500)` yields the
short-haul belly factor and `1500.1` the long-haul one; in general for
mode AIR and every subtype, a distance ≤ 1500 selects the short-haul
factor, a distance > 1500 the long-haul factor, and a missing (`None`)
distance is treated as 0, selecting the short-haul factor. -/
theorem C4_air_distance_bands :
    get_emission_factor "AIR" "belly" (some 1500) = EF_air "belly_short" ∧
    get_emission_factor "AIR" "belly" (some 1500.1) = EF_air "belly_long" ∧
    (∀ (subtype : String) (d : ℚ), d ≤ 1500 →
      get_emission_factor "AIR" subtype (some d) =
        (if subtype = "freighter" then EF_air "freighter_short"
         else EF_air "belly_short")) ∧
    (∀ (subtype : String) (d : ℚ), 1500 < d →
      get_emission_factor "AIR" subtype (some d) =
        (if subtype = "freighter" then EF_air "freighter_long"
         else EF_air "belly_long")) ∧
    (∀ subtype : String, get_emission_factor "AIR" subtype none =
        (if subtype = "freighter" then EF_air "freighter_short"
         else EF_air "belly_short")) := by
  refine ⟨?_, ?_, ?_, ?_, ?_⟩
  · rw [gef_air_unfold, Option.getD_some,
      if_pos (by norm_num : (1500 : ℚ) ≤ 1500), if_neg (by decide)]
  · rw [gef_air_unfold, Option.getD_some,
      if_neg (by norm_num : ¬((1500.1 : ℚ) ≤ 1500)), if_neg (by decide)]
  · intro subtype d hd
    rw [gef_air_unfold, Option.getD_some, if_pos hd]
  · intro subtype d hd
    rw [gef_air_unfold, Option.getD_some, if_neg (not_le.mpr hd)]
  · intro subtype
    rw [gef_air_unfold, Option.getD_none, if_pos (by norm_num)]

/-- Witness for C4 at a concrete subtype and distances on both sides of
the hypotheses. -/
theorem C4_air_distance_bands_witness :
    get_emission_factor "AIR" "cargo" (some 100) = EF_air "belly_short" ∧
    get_emission_factor "AIR" "freighter" (some 9000) = EF_air "freighter_long" := by
  constructor
  · have h := C4_air_distance_bands.2.2.1 "cargo" 100 (by norm_num)
    simpa using h
  · have h := C4_air_distance_bands.2.2.2.1 "freighter" 9000 (by norm_num)
    simpa using h

/-! ## C6: the emissions aggregator computes the stated formula -/

/-- C6: `calculate_shipment_emissions` computes each sector's
`emissions_kg` as `(weight_kg / 1000) × (distance_km or 0) ×
factor(mode, subtype, distance_km)`, its `total_emissions_kg` is the
sum of `emissions_kg` over the sectors in order, and a sector with a
missing (`None`) distance contributes exactly zero.  (Totality — "never
raises" — holds by construction: the model function is total.) -/
theorem C6_emissions_formula (sh : Shipment) (w : ℚ)
    (road_subtype air_subtype sea_subtype : String) :
    (calculate_shipment_emissions sh w road_subtype air_subtype sea_subtype).total_emissions_kg =
      (sh.sectors.map (fun s => w / 1000 * s.distance_km.getD 0 *
        get_emission_factor s.mode
          (subtypeFor road_subtype air_subtype sea_subtype s.mode) s.distance_km)).sum ∧
    (calculate_shipment_emissions sh w road_subtype air_subtype sea_subtype).by_sector =
      sh.sectors.map (sectorEmission (w / 1000) road_subtype air_subtype sea_subtype) ∧
    (∀ s ∈ sh.sectors, s.distance_km = none →
      (sectorEmission (w / 1000) road_subtype air_subtype sea_subtype s).emissions_kg = 0) := by
  refine ⟨?_, rfl, ?_⟩
  · show (List.foldl _ 0 _) = _
    rw [foldl_add_emissions, zero_add, List.map_map]
    have hfun : SectorEmission.emissions_kg ∘
        sectorEmission (w / 1000) road_subtype air_subtype sea_subtype =
        fun s => w / 1000 * s.distance_km.getD 0 *
          get_emission_factor s.mode
            (subtypeFor road_subtype air_subtype sea_subtype s.mode) s.distance_km := by
      funext s
      simp only [Function.comp_apply, sectorEmission, get_emission_factor_getD]
    rw [hfun]
  · intro s _ hnone
    simp [sectorEmission, hnone]

/-- Witness for C6: a sector with a missing distance contributes zero
emissions. -/
theorem C6_emissions_formula_witness :
    (sectorEmission (400 / 1000) "heavy_avg" "belly" "container"
      { sector := 1, mode := "AIR", from_ := "SGSIN", to_ := "KRICN",
        transport_number := some "SQ600", transport_date := some "3/7/2025",
        distance_km := none }).emissions_kg = 0 :=
  (C6_emissions_formula shMissingDist 400 "heavy_avg" "belly" "container").2.2
    _ (List.mem_singleton_self _) rfl

/-! ## C7: records with fewer than 6 columns are dropped -/

/-- C7: a logical record that tokenizes to fewer than 6 tab-separated
columns contributes zero shipments, parsing is unaffected by removing
such records (processing continues with the rest), and an input all of
whose cleaned records are that short yields an empty shipment list. -/
theorem C7_short_records_dropped (dist : String → String → ℚ) (text : String) :
    (∀ line : String, (tokenizeTabQuoted line).length < 6 →
      parseLine dist line = none) ∧
    parse_logistics_data dist text =
      ((cleanLines text).filter
        (fun line => 6 ≤ (tokenizeTabQuoted line).length)).filterMap (parseLine dist) ∧
    ((∀ line ∈ cleanLines text, (tokenizeTabQuoted line).length < 6) →
      parse_logistics_data dist text = []) := by
  have hshort : ∀ line : String, (tokenizeTabQuoted line).length < 6 →
      parseLine dist line = none := by
    intro line h
    simp only [parseLine, parseCols, List.length_map]
    rw [if_pos h]
  have hfilter : parse_logistics_data dist text =
      ((cleanLines text).filter
        (fun line => 6 ≤ (tokenizeTabQuoted line).length)).filterMap (parseLine dist) := by
    apply filterMap_eq_filterMap_filter
    intro a ha
    exact hshort a (by simpa using ha)
  refine ⟨hshort, hfilter, ?_⟩
  intro hall
  rw [hfilter, List.filter_eq_nil_iff.mpr, List.filterMap_nil]
  intro a ha
  simp [Nat.not_le, hall a ha]

/-- Witness for C7: an input consisting of a single 2-column line
yields no shipments. -/
theorem C7_short_records_dropped_witness :
    parse_logistics_data zeroDist "too\tfew" = [] :=
  (C7_short_records_dropped zeroDist "too\tfew").2.2 (by decide)

/-! ## C9: `_distance_between` is total and zero-on-failure -/

/-- C9: in the stable server `_distance_between` always returns a
rational (its codomain here is `ℚ`, not `Option ℚ` — totality by
construction); whenever either endpoint fails to resolve, or the
geodesic computation fails, it returns exactly `0.0`; and every sector
produced by the parser has its `distance_km` populated with a non-`None`
number. -/
theorem C9_distance_total (g : String → Option Coords)
    (geo : Coords → Coords → Option ℚ) (a b : String) :
    (_coords_for_location g a = none ∨ _coords_for_location g b = none →
      _distance_between g geo a b = 0) ∧
    (∀ ca cb, _coords_for_location g a = some ca →
      _coords_for_location g b = some cb → geo ca cb = none →
      _distance_between g geo a b = 0) ∧
    (∀ (dist : String → String → ℚ) (cols : List String) (sh : Shipment),
      parseCols dist cols = some sh →
      ∀ s ∈ sh.sectors, ∃ q : ℚ, s.distance_km = some q) := by
  refine ⟨?_, ?_, ?_⟩
  · intro h
    cases ha : _coords_for_location g a <;> cases hb : _coords_for_location g b <;>
      simp_all [_distance_between]
  · intro ca cb ha hb hgeo
    simp [_distance_between, ha, hb, hgeo]
  · intro dist cols sh hp s hs
    by_cases h6 : cols.length < 6
    · rw [parseCols, if_pos h6] at hp
      exact absurd hp (by simp)
    · rw [parseCols, if_neg h6] at hp
      obtain rfl := Option.some.inj hp
      obtain ⟨t, _, rfl⟩ := List.mem_map.mp hs
      exact ⟨_, rfl⟩

/-- Witness for C9: with failing oracles the distance between two
concrete unresolvable locations is 0, and the parsed C1 line has every
`distance_km` populated. -/
theorem C9_distance_total_witness :
    _distance_between gNone geoNone "123 Main St" "456 Side St" = 0 :=
  (C9_distance_total gNone geoNone "123 Main St" "456 Side St").1
    (Or.inl (by decide))

/-! ## C10: physical lines containing header tokens are discarded -/

theorem cleanLoop_filter_header (ls : List String) (cur : String) :
    cleanLoop ls cur =
      cleanLoop (ls.filter (fun l => !containsHeaderToken l)) cur := by
  induction ls generalizing cur with
  | nil => rfl
  | cons l t ih =>
      by_cases hh : containsHeaderToken l
      · rw [List.filter_cons, if_neg (by simp [hh])]
        simp only [cleanLoop, if_pos hh]
        exact ih cur
      · rw [List.filter_cons, if_pos (by simp [hh])]
        simp only [cleanLoop, if_neg hh]
        by_cases hc : (startsNumTab l && cur ≠ "") = true
        · rw [if_pos hc, if_pos hc, ih l]
        · rw [if_neg hc, if_neg hc, ih (cur ++ " " ++ pyStrip l)]

/-- C10: a physical input line containing any of the substrings
`Ref No`, `Pickup From`, `Origin`, `1st sector` is discarded before
tokenization — the record folding behaves exactly as if such lines were
deleted from the input — and an input all of whose lines contain such a
token yields no shipments. -/
theorem C10_header_lines_skipped (dist : String → String → ℚ) (text : String) :
    cleanLines text =
      cleanLoop ((pyLines text).filter (fun l => !containsHeaderToken l)) "" ∧
    ((∀ l ∈ pyLines text, containsHeaderToken l = true) →
      parse_logistics_data dist text = []) := by
  constructor
  · exact cleanLoop_filter_header (pyLines text) ""
  · intro h
    rw [parse_logistics_data, cleanLines, cleanLoop_filter_header,
      List.filter_eq_nil_iff.mpr (by intro a ha; simp [h a ha])]
    rfl

/-- Witness for C10: a data line whose destination field contains the
word `Origin` yields no shipment. -/
theorem C10_header_lines_skipped_witness :
    parse_logistics_data zeroDist "1\tA001\tWarehouse\tOriginville\tD\tE" = [] :=
  (C10_header_lines_skipped zeroDist "1\tA001\tWarehouse\tOriginville\tD\tE").2
    (by decide)

/-! ## C2 and C5: sector sequencing -/

theorem parseCols_eq (dist : String → String → ℚ) (cols : List String)
    (h6 : ¬(cols.length < 6)) :
    parseCols dist cols = some
      { ref_no := cols.getD 1 "", pickup_from := cols.getD 2 "",
        origin := cols.getD 3 "", destination := cols.getD 4 "",
        delivery_to := cols.getD 5 "",
        sectors := (sequenceSectors (transportTypeOf (cols.getD 1 ""))
            (cols.getD 2 "") (cols.getD 3 "") (cols.getD 4 "") (cols.getD 5 "")
            (baseSectors (transportTypeOf (cols.getD 1 "")) (cols.getD 3 "")
              (cols.getD 4 "") cols)).map
          (fun s => { s with distance_km := some (dist s.from_ s.to_) }),
        transport_type := transportTypeOf (cols.getD 1 "") } := by
  rw [parseCols, if_neg h6]

/-- C2 (amended): a record with at least 6 columns whose reference
starts with `S` parses to one SEA sector plus two TRUCK sectors when
`pickup_from` is not a no-pickup sentinel, and to one SEA sector plus a
single terminal TRUCK sector when it is — regardless of trailing
columns. -/
theorem C2_sea_sectors (dist : String → String → ℚ) (cols : List String)
    (h6 : 6 ≤ cols.length) (hS : pyStartswith (cols.getD 1 "") "S" = true) :
    ∃ sh, parseCols dist cols = some sh ∧
      sh.sectors.map Sector.mode =
        (if _is_no_pickup (cols.getD 2 "") then ["SEA", "TRUCK"]
         else ["TRUCK", "SEA", "TRUCK"]) := by
  refine ⟨_, parseCols_eq dist cols (by omega), ?_⟩
  rw [transportTypeOf_S _ hS]
  by_cases hp : _is_no_pickup (cols.getD 2 "") = true
  · rw [if_pos hp]
    have hp2 : _is_no_pickup (cols[2]?.getD "") = true := by
      rw [← List.getD_eq_getElem?_getD]; exact hp
    simp [sequenceSectors, baseSectors, hp2, deliveryTruck]
  · rw [if_neg hp]
    have hp2 : _is_no_pickup (cols[2]?.getD "") = false := by simpa using hp
    simp [sequenceSectors, baseSectors, hp2, renumberFrom, pickupTruck, deliveryTruck]

/-- Witness for C2's amended statement at a concrete record. -/
theorem C2_sea_sectors_witness :
    ∃ sh, parseCols zeroDist ["1", "S001", "NO PICKUP", "SGSIN", "KRPUS", "Somewhere"]
        = some sh ∧
      sh.sectors.map Sector.mode = ["SEA", "TRUCK"] := by
  obtain ⟨sh, hsh, hmode⟩ := C2_sea_sectors zeroDist
    ["1", "S001", "NO PICKUP", "SGSIN", "KRPUS", "Somewhere"] (by decide) (by decide)
  rw [if_pos (by decide)] at hmode
  exact ⟨sh, hsh, hmode⟩

/-- Counterexample to C2 as stated: for the "NO PICKUP" sentinel the
SEA shipment has only two sectors (one SEA, one TRUCK), not three. -/
theorem C2_counterexample :
    (parse_with_geo gNone geoNone lineC2).map
        (fun sh => (pyStartswith sh.ref_no "S", sh.sectors.map Sector.mode)) =
      [(true, ["SEA", "TRUCK"])] ∧
    ∀ sh ∈ parse_with_geo gNone geoNone lineC2, sh.sectors.length ≠ 3 := by
  decide

/-- C5: when `pickup_from` (after trimming and uppercasing) is one of
the no-pickup sentinels, no TRUCK sector travelling from `pickup_from`
appears; otherwise a TRUCK sector from `pickup_from` to the origin
facility is prepended as sector 1. -/
theorem C5_no_pickup_sentinel (dist : String → String → ℚ) (cols : List String)
    (h6 : 6 ≤ cols.length) :
    ∃ sh, parseCols dist cols = some sh ∧
      (_is_no_pickup (cols.getD 2 "") = true →
        ∀ s ∈ sh.sectors, ¬(s.mode = "TRUCK" ∧ s.from_ = cols.getD 2 "")) ∧
      (_is_no_pickup (cols.getD 2 "") = false →
        sh.sectors.head? = some
          { sector := 1, mode := "TRUCK", from_ := cols.getD 2 "",
            to_ := (if transportTypeOf (cols.getD 1 "") = "AIR"
                    then cols.getD 3 "" ++ " airport"
                    else cols.getD 3 "" ++ " seaport"),
            transport_number := none, transport_date := none,
            distance_km := some (dist (cols.getD 2 "")
              (if transportTypeOf (cols.getD 1 "") = "AIR"
               then cols.getD 3 "" ++ " airport"
               else cols.getD 3 "" ++ " seaport")) }) := by
  refine ⟨_, parseCols_eq dist cols (by omega), ?_, ?_⟩
  · intro hp s hs
    simp only [sequenceSectors, hp, if_true] at hs
    rcases List.mem_map.mp hs with ⟨t, ht, rfl⟩
    rcases List.mem_append.mp ht with htb | htd
    · rintro ⟨hm, _⟩
      by_cases hA : transportTypeOf (cols.getD 1 "") = "AIR"
      · rw [baseSectors, if_pos hA] at htb
        have hair := airLegsFrom_mode _ _ t htb
        have : t.mode = "TRUCK" := hm
        rw [hair] at this
        exact absurd this (by decide)
      · by_cases hSe : transportTypeOf (cols.getD 1 "") = "SEA"
        · rw [baseSectors, if_neg hA, if_pos hSe] at htb
          have ht2 : t.mode = "SEA" := by
            rcases List.mem_singleton.mp htb with rfl
            rfl
          have : t.mode = "TRUCK" := hm
          rw [ht2] at this
          exact absurd this (by decide)
        · rw [baseSectors, if_neg hA, if_neg hSe] at htb
          exact absurd htb (List.not_mem_nil t)
    · rintro ⟨_, hf⟩
      rcases List.mem_singleton.mp htd with rfl
      have hf2 : (if transportTypeOf (cols.getD 1 "") = "AIR"
          then cols.getD 4 "" ++ " airport"
          else cols.getD 4 "" ++ " seaport") = cols.getD 2 "" := hf
      by_cases hA : transportTypeOf (cols.getD 1 "") = "AIR"
      · rw [if_pos hA] at hf2
        rw [← hf2, facility_not_sentinel _ _ (Or.inl rfl)] at hp
        exact absurd hp (by decide)
      · rw [if_neg hA] at hf2
        rw [← hf2, facility_not_sentinel _ _ (Or.inr rfl)] at hp
        exact absurd hp (by decide)
  · intro hp
    simp only [sequenceSectors, hp, Bool.false_eq_true, if_false, renumberFrom,
      pickupTruck]
    rfl

/-! ## C3: N AIR quadruples and a pickup give N+2 contiguously numbered
sectors -/

theorem list_four (q : List String) (h : q.length = 4) :
    ∃ a b c d, q = [a, b, c, d] := by
  rcases q with _ | ⟨a, _ | ⟨b, _ | ⟨c, _ | ⟨d, r⟩⟩⟩⟩ <;> simp_all

theorem airLegsFrom_stop : ∀ (rest : List String) (k : Nat),
    rest.length < 4 ∨ isValidDateFmt (rest.getD 0 "") = false →
    airLegsFrom rest k = []
  | [], _, _ => by simp [airLegsFrom]
  | [d], _, _ => by simp [airLegsFrom]
  | [d, n], _, _ => by simp [airLegsFrom]
  | [d, n, f], _, _ => by simp [airLegsFrom]
  | d :: n :: f :: t :: r, k, h => by
      rcases h with h | h
      · simp at h
        omega
      · rw [airLegsFrom, if_neg (by simpa using h)]

theorem airLegsFrom_join_length (quads : List (List String)) (rest : List String)
    (hq : ∀ q ∈ quads, q.length = 4 ∧ isValidDateFmt (q.getD 0 "") = true)
    (hrest : rest.length < 4 ∨ isValidDateFmt (rest.getD 0 "") = false) :
    ∀ k, (airLegsFrom (quads.flatten ++ rest) k).length = quads.length := by
  induction quads with
  | nil =>
      intro k
      rw [List.flatten_nil, List.nil_append, airLegsFrom_stop rest k hrest]
      rfl
  | cons q qs ih =>
      intro k
      obtain ⟨hq4, hqd⟩ := hq q (List.mem_cons_self q qs)
      obtain ⟨a, b, c, d, rfl⟩ := list_four q hq4
      have hdate : isValidDateFmt a = true := hqd
      rw [List.flatten_cons, List.append_assoc]
      show (airLegsFrom (a :: b :: c :: d :: (qs.flatten ++ rest)) k).length = _
      rw [airLegsFrom, if_pos hdate]
      simp only [List.length_cons]
      rw [ih (fun q hmem => hq q (List.mem_cons_of_mem _ hmem)) (k + 1)]

theorem renumberFrom_length (n : Nat) (l : List Sector) :
    (renumberFrom n l).length = l.length := by
  induction l generalizing n with
  | nil => rfl
  | cons a t ih => simp [renumberFrom, ih]

theorem renumberFrom_map_sector (n : Nat) (l : List Sector) :
    (renumberFrom n l).map Sector.sector = List.range' n l.length := by
  induction l generalizing n with
  | nil => rfl
  | cons a t ih =>
      rw [List.length_cons, List.range'_succ]
      simp [renumberFrom, ih]

theorem transportTypeOf_A (ref : String) (h : pyStartswith ref "A" = true) :
    transportTypeOf ref = "AIR" := by
  rw [transportTypeOf, if_pos h]

theorem renumberFrom_cons_getLast?_sector (l : List Sector) :
    ∀ (n : Nat) (a : Sector), ∃ t,
      (renumberFrom n (a :: l)).getLast? = some t ∧ t.sector = n + l.length := by
  induction l with
  | nil => exact fun n a => ⟨{ a with sector := n }, rfl, rfl⟩
  | cons b t ih =>
      intro n a
      obtain ⟨u, hu, hus⟩ := ih (n + 1) b
      refine ⟨u, ?_, by rw [hus, List.length_cons]; omega⟩
      show ({ a with sector := n } :: renumberFrom (n + 1) (b :: t)).getLast? = some u
      rw [show renumberFrom (n + 1) (b :: t) =
        { b with sector := n + 1 } :: renumberFrom (n + 2) t from rfl,
        List.getLast?_cons_cons]
      rw [show ({ b with sector := n + 1 } :: renumberFrom (n + 2) t) =
        renumberFrom (n + 1) (b :: t) from rfl]
      exact hu

/-- C3: a record whose reference starts with `A`, carrying N trailing
valid AIR quadruples (and no further valid group) and a non-sentinel
pickup, parses to exactly N+2 sectors numbered contiguously 1..N+2,
with sector 1 a TRUCK leg from `pickup_from` and sector N+2 a TRUCK
leg to `delivery_to`. -/
theorem C3_air_sector_count (dist : String → String → ℚ)
    (c0 c1 c2 c3 c4 c5 : String) (quads : List (List String)) (rest : List String)
    (hq : ∀ q ∈ quads, q.length = 4 ∧ isValidDateFmt (q.getD 0 "") = true)
    (hrest : rest.length < 4 ∨ isValidDateFmt (rest.getD 0 "") = false)
    (hA : pyStartswith c1 "A" = true)
    (hp : _is_no_pickup c2 = false) :
    ∃ sh, parseCols dist ([c0, c1, c2, c3, c4, c5] ++ quads.flatten ++ rest)
        = some sh ∧
      sh.sectors.length = quads.length + 2 ∧
      sh.sectors.map Sector.sector = List.range' 1 (quads.length + 2) ∧
      (∃ s1, sh.sectors.head? = some s1 ∧ s1.mode = "TRUCK" ∧ s1.from_ = c2) ∧
      (∃ sN, sh.sectors.getLast? = some sN ∧ sN.mode = "TRUCK" ∧ sN.to_ = c5) := by
  have hlen : ¬(([c0, c1, c2, c3, c4, c5] ++ quads.flatten ++ rest).length < 6) := by
    simp [List.length_append]
  refine ⟨_, parseCols_eq dist _ hlen, ?_⟩
  have hg1 : ([c0, c1, c2, c3, c4, c5] ++ quads.flatten ++ rest).getD 1 "" = c1 := by
    rw [List.append_assoc, List.getD_append _ _ _ _ (by norm_num)]
    simp
  have hg2 : ([c0, c1, c2, c3, c4, c5] ++ quads.flatten ++ rest).getD 2 "" = c2 := by
    rw [List.append_assoc, List.getD_append _ _ _ _ (by norm_num)]
    simp
  have hg3 : ([c0, c1, c2, c3, c4, c5] ++ quads.flatten ++ rest).getD 3 "" = c3 := by
    rw [List.append_assoc, List.getD_append _ _ _ _ (by norm_num)]
    simp
  have hg4 : ([c0, c1, c2, c3, c4, c5] ++ quads.flatten ++ rest).getD 4 "" = c4 := by
    rw [List.append_assoc, List.getD_append _ _ _ _ (by norm_num)]
    simp
  have hg5 : ([c0, c1, c2, c3, c4, c5] ++ quads.flatten ++ rest).getD 5 "" = c5 := by
    rw [List.append_assoc, List.getD_append _ _ _ _ (by norm_num)]
    simp
  rw [hg1, hg2, hg3, hg4, hg5, transportTypeOf_A c1 hA]
  have hdrop : ([c0, c1, c2, c3, c4, c5] ++ quads.flatten ++ rest).drop 6 =
      quads.flatten ++ rest := by
    rw [List.append_assoc]
    simp
  have hbase : baseSectors "AIR" c3 c4 ([c0, c1, c2, c3, c4, c5] ++ quads.flatten ++ rest)
      = airLegsFrom (quads.flatten ++ rest) 1 := by
    rw [baseSectors, if_pos rfl, hdrop]
  rw [hbase]
  set base := airLegsFrom (quads.flatten ++ rest) 1 with hbdef
  have hbaseLen : base.length = quads.length :=
    airLegsFrom_join_length quads rest hq hrest 1
  -- unfold the sequencing with a real pickup
  obtain ⟨t, ht, hts⟩ := renumberFrom_cons_getLast?_sector base 1 (pickupTruck c2 c3 "AIR")
  have hts2 : t.sector = quads.length + 1 := by
    rw [hts, hbaseLen]
    omega
  have hseq : sequenceSectors "AIR" c2 c3 c4 c5 base =
      renumberFrom 1 (pickupTruck c2 c3 "AIR" :: base) ++
        [deliveryTruck c4 c5 "AIR" (quads.length + 2)] := by
    rw [sequenceSectors]
    have hpite : (if _is_no_pickup c2 = true then base
        else renumberFrom 1 (pickupTruck c2 c3 "AIR" :: base)) =
        renumberFrom 1 (pickupTruck c2 c3 "AIR" :: base) := by
      rw [if_neg (by simp [hp])]
    rw [hpite, ht]
    show _ ++ [deliveryTruck c4 c5 "AIR" (t.sector + 1)] = _
    rw [hts2]
  rw [hseq]
  have hfun : ∀ s : Sector,
      (Sector.sector ∘ fun s => { s with distance_km := some (dist s.from_ s.to_) }) s
        = Sector.sector s := fun s => rfl
  refine ⟨?_, ?_, ?_, ?_⟩
  · simp [renumberFrom_length, hbaseLen]
  · rw [List.map_map,
      show (Sector.sector ∘ fun s => { s with distance_km := some (dist s.from_ s.to_) })
        = Sector.sector from funext hfun,
      List.map_append, renumberFrom_map_sector, List.length_cons, hbaseLen]
    have : List.range' 1 (quads.length + 2) =
        List.range' 1 (quads.length + 1) ++ [1 + 1 * (quads.length + 1)] :=
      List.range'_concat 1 (quads.length + 1)
    rw [this]
    simp [deliveryTruck]
    omega
  · refine ⟨{ sector := 1, mode := "TRUCK", from_ := c2, to_ := c3 ++ " airport",
              transport_number := none, transport_date := none,
              distance_km := some (dist c2 (c3 ++ " airport")) }, ?_, rfl, rfl⟩
    show (List.map _ ((({ pickupTruck c2 c3 "AIR" with sector := 1 }) ::
        renumberFrom 2 base) ++ _)).head? = _
    rw [List.cons_append, List.map_cons, List.head?_cons]
    rfl
  · refine ⟨{ sector := quads.length + 2, mode := "TRUCK", from_ := c4 ++ " airport",
              to_ := c5, transport_number := none, transport_date := none,
              distance_km := some (dist (c4 ++ " airport") c5) }, ?_, rfl, rfl⟩
    rw [List.map_append]
    show (_ ++ [(fun s => { s with distance_km := some (dist s.from_ s.to_) })
        (deliveryTruck c4 c5 "AIR" (quads.length + 2))]).getLast? = _
    rw [List.getLast?_concat]
    rfl

/-- Witness for C3: one AIR quadruple plus a real pickup gives three
sectors numbered 1, 2, 3. -/
theorem C3_air_sector_count_witness :
    ∃ sh, parseCols zeroDist
        ["1", "A001", "Warehouse", "SGSIN", "KRICN", "Addr",
         "3/7/2025", "SQ600", "SGSIN", "KRICN"] = some sh ∧
      sh.sectors.length = 3 ∧
      sh.sectors.map Sector.sector = [1, 2, 3] := by
  obtain ⟨sh, hsh, hlen, hmap, _⟩ := C3_air_sector_count zeroDist
    "1" "A001" "Warehouse" "SGSIN" "KRICN" "Addr"
    [["3/7/2025", "SQ600", "SGSIN", "KRICN"]] []
    (by intro q hq; rcases List.mem_singleton.mp hq with rfl; exact ⟨rfl, by decide⟩)
    (Or.inl (by decide)) (by decide) (by decide)
  exact ⟨sh, hsh, hlen, by rw [hmap]; decide⟩

/-- Witness for C5 at a concrete record with a real pickup. -/
theorem C5_no_pickup_sentinel_witness :
    ∃ sh, parseCols zeroDist ["1", "A001", "Warehouse 5", "SGSIN", "KRICN", "X"]
        = some sh ∧
      sh.sectors.head? = some
        { sector := 1, mode := "TRUCK", from_ := "Warehouse 5",
          to_ := "SGSIN airport", transport_number := none, transport_date := none,
          distance_km := some 0 } := by
  obtain ⟨sh, hsh, _, hns⟩ := C5_no_pickup_sentinel zeroDist
    ["1", "A001", "Warehouse 5", "SGSIN", "KRICN", "X"] (by decide)
  refine ⟨sh, hsh, ?_⟩
  rw [hns (by decide)]
  decide

/-! ## C1: the end-to-end manifest line -/

/-- C1 (amended): the specification's end-to-end line parses to one AIR
shipment "A001" with exactly the two stated sectors (`AIR SGSIN→KRICN`,
`TRUCK "KRICN airport"→"123 Main St"`), and calculating with
`weight_kg = 400, air_subtype = "belly"` yields
`total = 0.4 × d1 × (0.98 if d1 ≤ 1500 else 0.77) + 0.4 × d2 × 0.08`,
where `d1`/`d2` are the resolved distances (0 when unresolved): the AIR
factor is selected by the distance band, not fixed at 0.98 as the claim
stated. -/
theorem C1_end_to_end_banded (g : String → Option Coords)
    (geo : Coords → Coords → Option ℚ) :
    parse_with_geo g geo lineC1 =
      [{ ref_no := "A001", pickup_from := "NO PICKUP", origin := "SGSIN",
         destination := "KRICN", delivery_to := "123 Main St",
         sectors := [
           { sector := 1, mode := "AIR", from_ := "SGSIN", to_ := "KRICN",
             transport_number := some "SQ600", transport_date := some "3/7/2025",
             distance_km := some (_distance_between g geo "SGSIN" "KRICN") },
           { sector := 2, mode := "TRUCK", from_ := "KRICN airport",
             to_ := "123 Main St", transport_number := none, transport_date := none,
             distance_km := some (_distance_between g geo "KRICN airport" "123 Main St") }],
         transport_type := "AIR" }] ∧
    ∀ sh ∈ parse_with_geo g geo lineC1,
      (calculate_shipment_emissions sh 400 "heavy_avg" "belly" "container").total_emissions_kg =
        0.4 * _distance_between g geo "SGSIN" "KRICN" *
          (if _distance_between g geo "SGSIN" "KRICN" ≤ 1500 then 0.98 else 0.77) +
        0.4 * _distance_between g geo "KRICN airport" "123 Main St" * 0.08 := by
  have hparse : parse_with_geo g geo lineC1 =
      [{ ref_no := "A001", pickup_from := "NO PICKUP", origin := "SGSIN",
         destination := "KRICN", delivery_to := "123 Main St",
         sectors := [
           { sector := 1, mode := "AIR", from_ := "SGSIN", to_ := "KRICN",
             transport_number := some "SQ600", transport_date := some "3/7/2025",
             distance_km := some (_distance_between g geo "SGSIN" "KRICN") },
           { sector := 2, mode := "TRUCK", from_ := "KRICN airport",
             to_ := "123 Main St", transport_number := none, transport_date := none,
             distance_km := some (_distance_between g geo "KRICN airport" "123 Main St") }],
         transport_type := "AIR" }] := rfl
  refine ⟨hparse, ?_⟩
  intro sh hsh
  rw [hparse] at hsh
  rcases List.mem_singleton.mp hsh with rfl
  show (List.foldl _ 0 _) = _
  rw [foldl_add_emissions, zero_add]
  simp only [List.map_cons, List.map_nil, List.sum_cons, List.sum_nil, add_zero,
    sectorEmission, Option.getD_some, gef_air_unfold]
  rw [show get_emission_factor "TRUCK"
      (subtypeFor "heavy_avg" "belly" "container" "TRUCK") (some
        (_distance_between g geo "KRICN airport" "123 Main St")) = 0.08 from rfl]
  norm_num [subtypeFor, EF_air]
  simp

/-- Counterexample to C1 as stated: with the geodesic reporting 2000 km
for the AIR leg (any value above 1500 km, as the real SIN→ICN distance
is), the code computes with the long-haul belly factor 0.77, so the
total is 616, while the claim's fixed-0.98 formula gives 784. -/
theorem C1_counterexample :
    (parse_with_geo gNone geoConst2000 lineC1).map
        (fun sh => (calculate_shipment_emissions sh 400 "heavy_avg" "belly"
          "container").total_emissions_kg) = [616] ∧
    (0.4 : ℚ) * _distance_between gNone geoConst2000 "SGSIN" "KRICN" * 0.98 +
      0.4 * _distance_between gNone geoConst2000 "KRICN airport" "123 Main St" * 0.08
      = 784 ∧
    (616 : ℚ) ≠ 784 := by
  have hd1 : _distance_between gNone geoConst2000 "SGSIN" "KRICN" = 2000 := by
    show pyRound1 2000 = 2000
    rw [pyRound1, show ((2000 : ℚ) * 10) = ((20000 : ℤ) : ℚ) by norm_num,
      Int.floor_intCast]
    norm_num
  have hd2 : _distance_between gNone geoConst2000 "KRICN airport" "123 Main St"
      = 0 := rfl
  refine ⟨?_, ?_, by norm_num⟩
  · rw [show parse_with_geo gNone geoConst2000 lineC1 =
        [{ ref_no := "A001", pickup_from := "NO PICKUP", origin := "SGSIN",
           destination := "KRICN", delivery_to := "123 Main St",
           sectors := [
             { sector := 1, mode := "AIR", from_ := "SGSIN", to_ := "KRICN",
               transport_number := some "SQ600", transport_date := some "3/7/2025",
               distance_km := some (_distance_between gNone geoConst2000 "SGSIN" "KRICN") },
             { sector := 2, mode := "TRUCK", from_ := "KRICN airport",
               to_ := "123 Main St", transport_number := none, transport_date := none,
               distance_km := some (_distance_between gNone geoConst2000
                 "KRICN airport" "123 Main St") }],
           transport_type := "AIR" }] from rfl]
    rw [List.map_cons, List.map_nil]
    congr 1
    show (List.foldl _ 0 _) = _
    rw [foldl_add_emissions, zero_add]
    simp only [List.map_cons, List.map_nil, List.sum_cons, List.sum_nil, add_zero,
      sectorEmission, Option.getD_some, gef_air_unfold, hd1, hd2]
    rw [show get_emission_factor "TRUCK"
        (subtypeFor "heavy_avg" "belly" "container" "TRUCK") (some 0) = 0.08 from rfl]
    norm_num [subtypeFor, EF_air]
    simp
  · rw [hd1, hd2]
    norm_num

/-! ## C8: memoization of `_geocode_query` -/

theorem geocode_hit (nom goog : String → Option Coords) (st : GeoCache) (q : String)
    (v : Option Coords) (h : lruLookup st.query_cache q = some v) :
    _geocode_query_c nom goog st q =
      (v, { st with query_cache := lruTouch st.query_cache q v }) := by
  simp only [_geocode_query_c, h]

theorem geocode_miss_const (st : GeoCache) (q : String)
    (h : lruLookup st.query_cache q = none) :
    _geocode_query_c nomConst nomConst st q =
      (some (0, 0),
       { st with query_cache := lruInsert st.query_cache q (some (0, 0)) 512,
                 external_calls := st.external_calls + 1 }) := by
  simp only [_geocode_query_c, h, nomConst]

theorem lruLookup_after_call (nom goog : String → Option Coords) (st : GeoCache)
    (q : String) :
    lruLookup (_geocode_query_c nom goog st q).2.query_cache q =
      some (_geocode_query_c nom goog st q).1 := by
  rw [_geocode_query_c]
  cases h : lruLookup st.query_cache q with
  | some v => simp [lruLookup, lruTouch, List.find?]
  | none =>
      cases hn : nom q with
      | some v =>
          show lruLookup (lruInsert st.query_cache q (some v) 512) q = some (some v)
          rw [lruInsert, show List.take 512 ((q, some v) :: st.query_cache) =
            (q, some v) :: List.take 511 st.query_cache from List.take_succ_cons]
          simp [lruLookup, List.find?]
      | none =>
          show lruLookup (lruInsert _ q _ 512) q = some _
          rw [lruInsert, List.take_succ_cons]
          simp [lruLookup, List.find?]

/-- C8 (amended): `_geocode_query` is memoized through an LRU cache of
capacity 512, not for the whole process lifetime.  A query present in
the cache is answered from it with no external call and no call-count
change, and an immediately repeated query always yields the identical
result with no additional external call; but after 512 distinct
intervening lookups an entry can be evicted and is then re-fetched
externally (see the counterexample). -/
theorem C8_memoized_lru (nom goog : String → Option Coords) (st : GeoCache)
    (q : String) :
    (∀ v, lruLookup st.query_cache q = some v →
      _geocode_query_c nom goog st q =
        (v, { st with query_cache := lruTouch st.query_cache q v })) ∧
    ((_geocode_query_c nom goog (_geocode_query_c nom goog st q).2 q).1 =
        (_geocode_query_c nom goog st q).1 ∧
      (_geocode_query_c nom goog (_geocode_query_c nom goog st q).2 q).2.external_calls
        = (_geocode_query_c nom goog st q).2.external_calls) := by
  refine ⟨fun v h => geocode_hit nom goog st q v h, ?_, ?_⟩
  · rw [geocode_hit nom goog _ q _ (lruLookup_after_call nom goog st q)]
  · rw [geocode_hit nom goog _ q _ (lruLookup_after_call nom goog st q)]

/-- Witness for C8's amended statement: a cached query is answered from
the cache, leaving the call counter untouched. -/
theorem C8_memoized_lru_witness :
    _geocode_query_c nomConst nomConst
        { query_cache := [("X", some (1, 2))], google_cache := [], external_calls := 5 }
        "X" =
      (some (1, 2),
       { query_cache := [("X", some (1, 2))], google_cache := [],
         external_calls := 5 }) := by
  have h := (C8_memoized_lru nomConst nomConst
    { query_cache := [("X", some (1, 2))], google_cache := [], external_calls := 5 }
    "X").1 (some (1, 2)) rfl
  rw [h]
  rfl

theorem lruLookup_cons_ne (c : List (String × Option Coords)) (p q : String)
    (v : Option Coords) (hne : ¬(q = p)) (h : lruLookup c p = none) :
    lruLookup ((q, v) :: c) p = none := by
  simp only [lruLookup, List.find?] at h ⊢
  rw [show ((q, v).1 == p) = false from beq_eq_false_iff_ne.mpr hne]
  exact h

theorem lruLookup_take_none (c : List (String × Option Coords)) (p : String) (n : Nat)
    (h : lruLookup c p = none) : lruLookup (c.take n) p = none := by
  simp only [lruLookup, Option.map_eq_none'] at h ⊢
  rw [List.find?_eq_none] at h ⊢
  exact fun x hx => h x (List.mem_of_mem_take hx)

theorem take_append_take (a b : List (String × Option Coords)) (n : Nat) :
    (a ++ b.take n).take n = (a ++ b).take n := by
  rw [List.take_append_eq_append_take, List.take_append_eq_append_take,
    List.take_take]
  congr 1
  rw [min_eq_left (Nat.sub_le n a.length)]

theorem runQueries_fresh (qs : List String) :
    ∀ st : GeoCache, qs.Nodup →
      (∀ q ∈ qs, lruLookup st.query_cache q = none) →
      st.query_cache.length ≤ 512 →
      runQueries nomConst nomConst qs st =
        { query_cache :=
            ((qs.reverse.map (fun q => (q, some ((0 : ℚ), (0 : ℚ))))) ++
              st.query_cache).take 512,
          google_cache := st.google_cache,
          external_calls := st.external_calls + qs.length } := by
  induction qs with
  | nil =>
      intro st _ _ hlen
      simp [runQueries, List.take_of_length_le hlen]
  | cons q qs ih =>
      intro st hnd hmem hlen
      rw [runQueries, geocode_miss_const st q (hmem q (List.mem_cons_self q qs))]
      rw [ih _ (List.Nodup.of_cons hnd) ?fresh ?len]
      case fresh =>
        intro p hp
        have hne : ¬(q = p) := by
          rintro rfl
          exact (List.nodup_cons.mp hnd).1 hp
        exact lruLookup_take_none _ _ _
          (lruLookup_cons_ne _ _ _ _ hne (hmem p (List.mem_cons_of_mem q hp)))
      case len => simp [lruInsert]
      have hcache : (qs.reverse.map (fun q => (q, some ((0 : ℚ), (0 : ℚ)))) ++
          lruInsert st.query_cache q (some (0, 0)) 512).take 512 =
          (((q :: qs).reverse.map (fun q => (q, some ((0 : ℚ), (0 : ℚ))))) ++
            st.query_cache).take 512 := by
        rw [lruInsert, take_append_take, List.reverse_cons, List.map_append,
          List.append_assoc]
        rfl
      rw [hcache]
      simp only [List.length_cons]
      congr 1
      omega

/-- Counterexample to C8 as stated: after resolving 513 distinct
location strings the first one has been evicted from the 512-entry LRU
cache, so resolving it a second time within the same process run makes
another external call (call count 514, not 513). -/
theorem C8_counterexample :
    stEvict.external_calls = 513 ∧
    (_geocode_query_c nomConst nomConst stEvict (qA 0)).2.external_calls = 514 := by
  have hinj : Function.Injective qA := by
    intro a b hab
    have h := congrArg (fun s : String => s.data.length) hab
    simpa [qA] using h
  have hnodup : qsEvict.Nodup :=
    (List.nodup_range 513).map (fun a b h => hinj h)
  have hrun := runQueries_fresh qsEvict emptyGeoCache hnodup
    (fun q _ => rfl) (by simp [emptyGeoCache])
  have hlen : qsEvict.length = 513 := by
    simp [qsEvict]
  have hext : stEvict.external_calls = 513 := by
    rw [stEvict, hrun]
    simp [emptyGeoCache, hlen]
  refine ⟨hext, ?_⟩
  have hsplit : qsEvict = qA 0 :: (List.range 512).map (fun n => qA (n + 1)) := by
    rw [qsEvict, List.range_succ_eq_map, List.map_cons, List.map_map]
    rfl
  have hmiss : lruLookup stEvict.query_cache (qA 0) = none := by
    rw [stEvict, hrun]
    simp only [emptyGeoCache, List.append_nil]
    rw [hsplit, List.reverse_cons, List.map_append]
    rw [List.take_left' (by simp :
      (((List.range 512).map (fun n => qA (n + 1))).reverse.map
        (fun q => (q, some ((0 : ℚ), (0 : ℚ))))).length = 512)]
    simp only [lruLookup, Option.map_eq_none']
    rw [List.find?_eq_none]
    rintro ⟨p, v⟩ hx
    simp only [List.mem_map, List.mem_reverse] at hx
    obtain ⟨p0, ⟨i, _, rfl⟩, hpv⟩ := hx
    have hp : p = qA (i + 1) := (congrArg Prod.fst hpv).symm
    rw [hp]
    simp only [beq_eq_false_iff_ne, ne_eq]
    intro hcon
    exact absurd (hinj (eq_of_beq hcon)) (by omega)
  rw [geocode_miss_const _ _ hmiss, hext]

end CarbonCalc
